import Mathlib

/-!
Shallow embedding of the QuicKart store-layout GraphQL service
(`src/src/model/items/index.js`, plus the earlier copy `src/unnamed/part_000`).

The document database is modelled as an explicit record of collections; the
driver's `insert` assigns a fresh store identifier (`_id`) to the inserted
document, appends it to its collection and returns it (`result.ops[0]`).
JavaScript numbers are modelled as exact rationals (`ℚ`) where the source
divides (`width/3`), and as `Int` where only integer arithmetic occurs.
JavaScript exceptions (thrown `Error`s, `ReferenceError`s on unbound
identifiers, `TypeError`s on null property access) are modelled by `JsError`.
-/

/-- Errors a resolver can raise: a thrown `Error(msg)`, a `ReferenceError` on an
unbound identifier, or a `TypeError` on a null property access. -/
inductive JsError where
  | thrown (msg : String)
  | referenceError (name : String)
  | typeError (msg : String)
  deriving DecidableEq

/-- Document of the `Item` collection. -/
structure ItemDoc where
  _id : Option Nat
  name : String
  aisle : String
  bay : String
  price : ℚ
  xVal : Int
  yVal : Int
  deriving DecidableEq

/-- Document of the `Aisles` collection. Bay coordinates are rationals because
the source computes them with JavaScript division (`width/3`). -/
structure AisleDoc where
  _id : Option Nat
  number : Int
  name : String
  bays : List (ℚ × ℚ)
  xStartVal : Int
  xEndVal : Int
  yStartVal : Int
  yEndVal : Int
  deriving DecidableEq

/-- Document of the `Checkout` collection. -/
structure CheckoutDoc where
  _id : Option Nat
  lane : Int
  xStartVal : Int
  xEndVal : Int
  yStartVal : Int
  yEndVal : Int
  deriving DecidableEq

/-- Document of the `Map` collection. -/
structure MapDoc where
  _id : Option Nat
  title : String
  description : String
  width : Int
  length : Int
  aisle : List AisleDoc
  checkout : List CheckoutDoc
  deriving DecidableEq

/-- Document of the `Inventory` collection; `id` is the caller-supplied integer
(distinct from the store-assigned `_id`). -/
structure InventoryDoc where
  _id : Option Nat
  id : Int
  title : String
  items : List ItemDoc
  deriving DecidableEq

/-- The document store: one list per collection, plus the next fresh `_id`. -/
structure DB where
  items : List ItemDoc
  aisles : List AisleDoc
  checkouts : List CheckoutDoc
  maps : List MapDoc
  inventories : List InventoryDoc
  nextId : Nat
  deriving DecidableEq

/-- An empty store. -/
def emptyDB : DB :=
  { items := [], aisles := [], checkouts := [], maps := [], inventories := [], nextId := 0 }

/-- Driver primitive db.collection(Item).insert: assign `_id`, append, return the
inserted document (`result.ops[0]`). -/
def insertItemDoc (st : DB) (d : ItemDoc) : DB × ItemDoc :=
  let d' := { d with _id := some st.nextId }
  ({ st with items := st.items ++ [d'], nextId := st.nextId + 1 }, d')

/-- Driver primitive db.collection(Aisles).insert. -/
def insertAisleDoc (st : DB) (d : AisleDoc) : DB × AisleDoc :=
  let d' := { d with _id := some st.nextId }
  ({ st with aisles := st.aisles ++ [d'], nextId := st.nextId + 1 }, d')

/-- Driver primitive db.collection(Checkout).insert. -/
def insertCheckoutDoc (st : DB) (d : CheckoutDoc) : DB × CheckoutDoc :=
  let d' := { d with _id := some st.nextId }
  ({ st with checkouts := st.checkouts ++ [d'], nextId := st.nextId + 1 }, d')

/-- Driver primitive db.collection(Map).insert. -/
def insertMapDoc (st : DB) (d : MapDoc) : DB × MapDoc :=
  let d' := { d with _id := some st.nextId }
  ({ st with maps := st.maps ++ [d'], nextId := st.nextId + 1 }, d')

/-- Driver primitive db.collection(Inventory).insert. -/
def insertInventoryDoc (st : DB) (d : InventoryDoc) : DB × InventoryDoc :=
  let d' := { d with _id := some st.nextId }
  ({ st with inventories := st.inventories ++ [d'], nextId := st.nextId + 1 }, d')

/-- Query.getInventory: findOne on `Inventory` by the explicit integer `id`,
then read `inventory.items`. When no document matches, `findOne` yields null
and the property access `inventory.items` raises a `TypeError`. -/
def getInventory (st : DB) (id : Int) : Except JsError (List ItemDoc) :=
  match st.inventories.find? (fun inv => inv.id == id) with
  | none => .error (.typeError "Cannot read properties of null (reading items)")
  | some inv => .ok inv.items

/-- Query.getAllMapCoords: after the existence check on the `Map` collection,
the source loops with conditions x < width and y < length, but `width` and
`length` are unbound identifiers there (they are not in any enclosing scope),
so evaluating the first loop condition raises `ReferenceError: width is not
defined`, before any pair is produced. -/
def getAllMapCoords (st : DB) (id : Nat) : Except JsError (List (Int × Int)) :=
  match st.maps.find? (fun m => m._id == some id) with
  | none => .error (.thrown "Map not found")
  | some _ => .error (.referenceError "width")

/-- Modelled from the spec: the grid the spec says getAllMapCoords should
return for a map of the given width and length — all pairs (x, y) with
0 ≤ x < width and 0 ≤ y < length, outer loop over x, inner loop over y.
The source's loop is unexecutable (see `getAllMapCoords`), so this definition
exists only to state the divergence. -/
def gridCoordsSpec (w l : Int) : List (Int × Int) :=
  ((List.range w.toNat).map Int.ofNat).flatMap
    (fun x => ((List.range l.toNat).map Int.ofNat).map (fun y => (x, y)))

/-- Mutation.createInventory: fetch all current Item documents and persist a
new Inventory embedding that snapshot; return the created document. -/
def createInventory (st : DB) (id : Int) (title : String) : DB × InventoryDoc :=
  let currItems := st.items
  let newInventory : InventoryDoc := { _id := none, id := id, title := title, items := currItems }
  insertInventoryDoc st newInventory

set_option linter.unusedVariables false in
/-- Mutation.createItem as it stands in the source (`src/unnamed/part_000`,
lines 131–136): the body is
`const result = await db.collection(Aisles).insert(newAisle); return result.ops[0];`
where `newAisle` is an unbound identifier, so evaluating the insert argument
raises `ReferenceError: newAisle is not defined` before anything is persisted;
none of the declared arguments is used. (The later copy `src/src/model/items/index.js`
declares createItem in the schema but has no resolver for it at all.)
The unused-variable linter is silenced because the source really ignores
every argument. -/
def createItem (st : DB) (name aisle bay : String) (price : ℚ) (xVal yVal : Int) :
    DB × Except JsError ItemDoc :=
  (st, .error (.referenceError "newAisle"))

/-- Loop indices of `for (let i = 0; i <= width; i++)`: the integers
0, 1, ..., width (empty when width < 0). -/
def loopIdxs (width : Int) : List Int :=
  (List.range (width + 1).toNat).map Int.ofNat

/-- One iteration of the bay loop in createAisle: push a bay coordinate pair
when `i` equals horizonBayLength, horizonBayLength*2 or horizonBayLength*3
(with horizonBayLength = width/3 in exact JavaScript-number arithmetic). -/
def bayPush (xStartVal xEndVal : Int) (width : ℚ) (bayCoords : List (ℚ × ℚ)) (i : Int) :
    List (ℚ × ℚ) :=
  let horizonBayLength : ℚ := width / 3
  if (i : ℚ) = horizonBayLength then
    let horizonFirstBayEnd : ℚ := (xStartVal : ℚ) + ((i : ℚ) - 1)
    bayCoords ++ [((xStartVal : ℚ), horizonFirstBayEnd)]
  else if (i : ℚ) = horizonBayLength * 2 then
    let horizonSecondBay : ℚ := (xStartVal : ℚ) + horizonBayLength
    let horizonSecondBayEnd : ℚ := (xStartVal : ℚ) + ((i : ℚ) - 1)
    bayCoords ++ [(horizonSecondBay, horizonSecondBayEnd)]
  else if (i : ℚ) = horizonBayLength * 3 then
    let horizonThirdBay : ℚ := (xStartVal : ℚ) + horizonBayLength * 2
    bayCoords ++ [(horizonThirdBay, (xEndVal : ℚ))]
  else bayCoords

/-- The element pushed (if any) by one iteration of the bay loop, so that the
loop body appends `(bayPushOf ...).toList`. -/
def bayPushOf (xStartVal xEndVal : Int) (width : ℚ) (i : Int) : Option (ℚ × ℚ) :=
  if (i : ℚ) = width / 3 then
    some ((xStartVal : ℚ), (xStartVal : ℚ) + ((i : ℚ) - 1))
  else if (i : ℚ) = width / 3 * 2 then
    some ((xStartVal : ℚ) + width / 3, (xStartVal : ℚ) + ((i : ℚ) - 1))
  else if (i : ℚ) = width / 3 * 3 then
    some ((xStartVal : ℚ) + width / 3 * 2, (xEndVal : ℚ))
  else none

/-- The value of `bayCoordinates` at the end of createAisle: the loop body runs
only in the width > length branch; otherwise the array stays empty. -/
def bayCoordinates (xStartVal xEndVal yStartVal yEndVal : Int) : List (ℚ × ℚ) :=
  let width := xEndVal - xStartVal + 1
  let length := yEndVal - yStartVal + 1
  if width > length then
    (loopIdxs width).foldl (bayPush xStartVal xEndVal (width : ℚ)) []
  else []

/-- Mutation.createAisle. In the source the construction of `newAisle`, the
insert and the return statement all sit inside the else branch of
`if (width > length)`: when width > length the function computes
`bayCoordinates`, then falls off the end, persisting nothing and returning
undefined (modelled as `none`); when width ≤ length it persists an aisle
whose `bays` field is the (then still empty) `bayCoordinates` array. -/
def createAisle (st : DB) (number : Int) (name : String)
    (xStartVal xEndVal yStartVal yEndVal : Int) : DB × Option AisleDoc :=
  let width := xEndVal - xStartVal + 1
  let length := yEndVal - yStartVal + 1
  if width > length then
    (st, none)
  else
    let newAisle : AisleDoc :=
      { _id := none, number := number, name := name,
        bays := bayCoordinates xStartVal xEndVal yStartVal yEndVal,
        xStartVal := xStartVal, xEndVal := xEndVal,
        yStartVal := yStartVal, yEndVal := yEndVal }
    let r := insertAisleDoc st newAisle
    (r.1, some r.2)

/-- The local validateRange of createMap: x ≥ min and y ≤ max. -/
def validateRange (x y min max : Int) : Bool :=
  decide (x ≥ min) && decide (y ≤ max)

/-- An aisle fails createMap's bounds check when validateRange rejects its
x-range or its y-range against the map's width and length. -/
def aisleViolation (width length : Int) (a : AisleDoc) : Bool :=
  !(validateRange a.xStartVal a.xEndVal 0 width && validateRange a.yStartVal a.yEndVal 0 length)

/-- A checkout lane fails createMap's bounds check in the same way. -/
def checkoutViolation (width length : Int) (c : CheckoutDoc) : Bool :=
  !(validateRange c.xStartVal c.xEndVal 0 width && validateRange c.yStartVal c.yEndVal 0 length)

/-- Mutation.createMap: reject a duplicate title, reject non-positive
dimensions, fetch all aisles and checkout lanes, throw on the first aisle
(then the first checkout lane) violating the bounds check, and only then
persist the map embedding the fetched snapshots. -/
def createMap (st : DB) (title description : String) (width length : Int) :
    DB × Except JsError MapDoc :=
  if (st.maps.find? (fun m => m.title == title)).isSome then
    (st, .error (.thrown "Map already exists"))
  else if !(decide (width > 0) && decide (length > 0)) then
    (st, .error (.thrown "Invalid map dimensions. Must have an area of at least 1 unit"))
  else
    let aisles := st.aisles
    let checkoutLanes := st.checkouts
    if aisles.any (aisleViolation width length) then
      (st, .error (.thrown "Aisle dimensions exceed map dimensions"))
    else if checkoutLanes.any (checkoutViolation width length) then
      (st, .error (.thrown "Checkout lane dimensions exceed map dimensions"))
    else
      let newMap : MapDoc :=
        { _id := none, title := title, description := description,
          width := width, length := length, aisle := aisles, checkout := checkoutLanes }
      let r := insertMapDoc st newMap
      (r.1, .ok r.2)

/-- Mutation.createCheckout: persist the lane verbatim and return it. -/
def createCheckout (st : DB) (lane xStartVal xEndVal yStartVal yEndVal : Int) :
    DB × CheckoutDoc :=
  let newLane : CheckoutDoc :=
    { _id := none, lane := lane, xStartVal := xStartVal, xEndVal := xEndVal,
      yStartVal := yStartVal, yEndVal := yEndVal }
  insertCheckoutDoc st newLane

/-- JavaScript `_id || id` on a document's fields, where `_id` holds a store
ObjectID (an object, hence always truthy) or is absent (undefined, falsy):
take `_id` when present, otherwise fall back to `id`. -/
def jsOrId {α : Type} (a b : Option α) : Option α :=
  if a.isSome then a else b

/-- The Aisle field resolver `id: ({ _id, id }) => _id || id`. -/
def resolveAisleId (_id id : Option Nat) : Option Nat := jsOrId _id id

/-- The Item field resolver `id: ({ _id, id }) => _id || id`. -/
def resolveItemId (_id id : Option Nat) : Option Nat := jsOrId _id id

/-- The StoreMap field resolver `id: ({ _id, id }) => _id || id`. -/
def resolveStoreMapId (_id id : Option Nat) : Option Nat := jsOrId _id id

/-- No Inventory field resolver exists in the source, so the framework's
default resolver returns the document's own explicit `id` property. -/
def inventoryPublicId (inv : InventoryDoc) : Int := inv.id

/-- A 2 × 2 map stored under store identifier 0, for exercising getAllMapCoords. -/
def c4Map : MapDoc :=
  { _id := some 0, title := "M", description := "d", width := 2, length := 2,
    aisle := [], checkout := [] }

/-- A store holding only `c4Map`. -/
def c4State : DB := { emptyDB with maps := [c4Map], nextId := 1 }

/-- An aisle whose x-range 0..10 sticks out of a width 5 map (10 > 5), violating
createMap's bounds check. -/
def c5BadAisle : AisleDoc :=
  { _id := some 0, number := 1, name := "Bad", bays := [],
    xStartVal := 0, xEndVal := 10, yStartVal := 0, yEndVal := 5 }

/-- A store holding only `c5BadAisle`. -/
def c5State : DB := { emptyDB with aisles := [c5BadAisle], nextId := 1 }

/-- An aisle with xStartVal = 10 beyond a width 5 map but xEndVal = 3 within it:
validateRange only tests xStartVal ≥ 0 and xEndVal ≤ width, so it passes. -/
def c6Aisle : AisleDoc :=
  { _id := some 0, number := 1, name := "Swapped", bays := [],
    xStartVal := 10, xEndVal := 3, yStartVal := 0, yEndVal := 4 }

/-- A store holding only `c6Aisle`. -/
def c6State : DB := { emptyDB with aisles := [c6Aisle], nextId := 1 }

/-- Item A of the snapshot example. -/
def itemA : ItemDoc :=
  { _id := some 0, name := "A", aisle := "1", bay := "1", price := 1, xVal := 0, yVal := 0 }

/-- Item B of the snapshot example. -/
def itemB : ItemDoc :=
  { _id := some 1, name := "B", aisle := "1", bay := "2", price := 2, xVal := 1, yVal := 0 }

/-- Item C of the snapshot example, inserted only after the inventory. -/
def itemC : ItemDoc :=
  { _id := some 2, name := "C", aisle := "2", bay := "1", price := 3, xVal := 2, yVal := 0 }

/-- A store already holding items A and B. -/
def c7State : DB := { emptyDB with items := [itemA, itemB], nextId := 2 }

/-- An inventory with caller id 1 embedding item A. -/
def c8Inventory : InventoryDoc := { _id := some 1, id := 1, title := "stock", items := [itemA] }

/-- A store holding `c8Inventory` and item A. -/
def c8State : DB := { emptyDB with items := [itemA], inventories := [c8Inventory], nextId := 2 }

/-- The Inventory document created with caller id 3 in a store whose next store
identifier is 7: it carries both _id = some 7 and the explicit id = 3. -/
def c10Inv : InventoryDoc := (createInventory { emptyDB with nextId := 7 } 3 "inv").2

example : bayCoordinates 0 0 0 2 = [] := rfl
example : (createAisle emptyDB 1 "A" 0 5 0 0).2 = none := rfl
example : gridCoordsSpec 2 2 = [(0, 0), (0, 1), (1, 0), (1, 1)] := by decide
example : bayCoordinates 0 5 0 0 = [(0, 1), (2, 3), (4, 5)] := by
  rw [show bayCoordinates 0 5 0 0 =
        (loopIdxs 6).foldl (bayPush 0 5 ((6 : Int) : ℚ)) [] from rfl,
      show loopIdxs 6 = [0, 1, 2, 3, 4, 5, 6] from by decide]
  norm_num [bayPush]

lemma bayPush_eq_append (xs xe : Int) (w : ℚ) (acc : List (ℚ × ℚ)) (i : Int) :
    bayPush xs xe w acc i = acc ++ (bayPushOf xs xe w i).toList := by
  simp only [bayPush, bayPushOf]
  split_ifs <;> simp

lemma foldl_bayPush (xs xe : Int) (w : ℚ) : ∀ (l : List Int) (acc : List (ℚ × ℚ)),
    l.foldl (bayPush xs xe w) acc = acc ++ l.filterMap (bayPushOf xs xe w)
  | [], acc => by simp
  | i :: t, acc => by
    rw [List.foldl_cons, foldl_bayPush xs xe w t _, bayPush_eq_append]
    cases h : bayPushOf xs xe w i <;> simp [List.filterMap_cons, h]

lemma filterMap_range_none {α : Type} (g : Nat → Option α) (m : Nat)
    (h : ∀ k, k < m → g k = none) : (List.range m).filterMap g = [] :=
  List.filterMap_eq_nil_iff.mpr (fun k hk => h k (List.mem_range.mp hk))

lemma filterMap_range_one {α : Type} (g : Nat → Option α) (m n1 : Nat) (p1 : α)
    (h1 : n1 < m) (h : ∀ k, k < m → g k = if k = n1 then some p1 else none) :
    (List.range m).filterMap g = [p1] := by
  induction m with
  | zero => omega
  | succ m ih =>
    rw [List.range_succ, List.filterMap_append]
    by_cases h' : n1 < m
    · rw [ih h' (fun k hk => h k (Nat.lt_succ_of_lt hk))]
      have hm : g m = none := by rw [h m (Nat.lt_succ_self m), if_neg (by omega)]
      simp [List.filterMap_cons, hm]
    · have hn : n1 = m := by omega
      subst hn
      rw [filterMap_range_none g n1
        (fun k hk => by rw [h k (Nat.lt_succ_of_lt hk), if_neg (by omega)])]
      have hm : g n1 = some p1 := by rw [h n1 (Nat.lt_succ_self n1), if_pos rfl]
      simp [List.filterMap_cons, hm]

lemma filterMap_range_three {α : Type} (g : Nat → Option α) (n1 n2 n3 : Nat) (p1 p2 p3 : α)
    (h12 : n1 < n2) (h23 : n2 < n3)
    (h : ∀ k, k ≤ n3 → g k = if k = n1 then some p1 else if k = n2 then some p2
        else if k = n3 then some p3 else none) :
    (List.range (n3 + 1)).filterMap g = [p1, p2, p3] := by
  have d1 : (List.range (n3 + 1)).filterMap g =
      (List.range (n2 + 1)).filterMap g ++
        (List.range (n3 - n2)).filterMap (g ∘ (fun j => (n2 + 1) + j)) := by
    rw [show n3 + 1 = (n2 + 1) + (n3 - n2) from by omega, List.range_add,
      List.filterMap_append, List.filterMap_map]
  have d2 : (List.range (n2 + 1)).filterMap g =
      (List.range (n1 + 1)).filterMap g ++
        (List.range (n2 - n1)).filterMap (g ∘ (fun j => (n1 + 1) + j)) := by
    rw [show n2 + 1 = (n1 + 1) + (n2 - n1) from by omega, List.range_add,
      List.filterMap_append, List.filterMap_map]
  have c1 : (List.range (n1 + 1)).filterMap g = [p1] := by
    refine filterMap_range_one g (n1 + 1) n1 p1 (Nat.lt_succ_self n1) (fun k hk => ?_)
    rw [h k (by omega)]
    by_cases e : k = n1
    · simp [e]
    · simp [e, show k ≠ n2 from by omega, show k ≠ n3 from by omega]
  have c2 : (List.range (n2 - n1)).filterMap (g ∘ (fun j => (n1 + 1) + j)) = [p2] := by
    refine filterMap_range_one _ (n2 - n1) (n2 - n1 - 1) p2 (by omega) (fun k hk => ?_)
    simp only [Function.comp]
    by_cases e : k = n2 - n1 - 1
    · rw [e, show n1 + 1 + (n2 - n1 - 1) = n2 from by omega, h n2 (by omega)]
      simp [show ¬(n2 = n1) from by omega]
    · rw [h (n1 + 1 + k) (by omega)]
      simp [show ¬(n1 + 1 + k = n1) from by omega, show ¬(n1 + 1 + k = n2) from by omega,
        show ¬(n1 + 1 + k = n3) from by omega, e]
  have c3 : (List.range (n3 - n2)).filterMap (g ∘ (fun j => (n2 + 1) + j)) = [p3] := by
    refine filterMap_range_one _ (n3 - n2) (n3 - n2 - 1) p3 (by omega) (fun k hk => ?_)
    simp only [Function.comp]
    by_cases e : k = n3 - n2 - 1
    · rw [e, show n2 + 1 + (n3 - n2 - 1) = n3 from by omega, h n3 (by omega)]
      simp [show ¬(n3 = n1) from by omega, show ¬(n3 = n2) from by omega]
    · rw [h (n2 + 1 + k) (by omega)]
      simp [show ¬(n2 + 1 + k = n1) from by omega, show ¬(n2 + 1 + k = n2) from by omega,
        show ¬(n2 + 1 + k = n3) from by omega, e]
  rw [d1, d2, c1, c2, c3]
  rfl

lemma bayPushOf_char (xs xe : Int) (n k : Nat) (hn : 1 ≤ n) :
    bayPushOf xs xe ((3 * n : Nat) : ℚ) (Int.ofNat k) =
      if k = n then some ((xs : ℚ), (xs : ℚ) + ((n : ℚ) - 1))
      else if k = 2 * n then some ((xs : ℚ) + (n : ℚ), (xs : ℚ) + (2 * (n : ℚ) - 1))
      else if k = 3 * n then some ((xs : ℚ) + 2 * (n : ℚ), (xe : ℚ))
      else none := by
  have hw3 : ((3 * n : Nat) : ℚ) / 3 = (n : ℚ) := by
    push_cast
    exact mul_div_cancel_left₀ _ (by norm_num)
  have hcast : ((Int.ofNat k : Int) : ℚ) = (k : ℚ) := rfl
  have c1 : ((k : ℚ) = (n : ℚ)) ↔ k = n := Nat.cast_inj
  have c2 : ((k : ℚ) = (n : ℚ) * 2) ↔ k = 2 * n := by
    rw [show (n : ℚ) * 2 = ((2 * n : Nat) : ℚ) from by push_cast; ring]
    exact Nat.cast_inj
  have c3 : ((k : ℚ) = (n : ℚ) * 3) ↔ k = 3 * n := by
    rw [show (n : ℚ) * 3 = ((3 * n : Nat) : ℚ) from by push_cast; ring]
    exact Nat.cast_inj
  rw [bayPushOf, hcast, hw3]
  simp only [c1, c2, c3]
  split_ifs with e1 e2 e3
  · subst e1; rfl
  · subst e2
    refine congrArg some (Prod.ext rfl ?_)
    push_cast
    ring
  · subst e3
    refine congrArg some (Prod.ext ?_ rfl)
    push_cast
    ring
  · rfl

lemma bayCoordinates_horizontal (xs xe ys ye : Int) (n : Nat) (hn : 1 ≤ n)
    (hw : xe - xs + 1 = 3 * (n : Int)) (hl : ye - ys + 1 < xe - xs + 1) :
    bayCoordinates xs xe ys ye =
      [((xs : ℚ), (xs : ℚ) + ((n : ℚ) - 1)),
       ((xs : ℚ) + (n : ℚ), (xs : ℚ) + (2 * (n : ℚ) - 1)),
       ((xs : ℚ) + 2 * (n : ℚ), (xe : ℚ))] := by
  rw [show bayCoordinates xs xe ys ye =
      (if xe - xs + 1 > ye - ys + 1 then
        (loopIdxs (xe - xs + 1)).foldl (bayPush xs xe ((xe - xs + 1 : Int) : ℚ)) []
      else []) from rfl,
    if_pos hl, hw]
  have ht : ((3 * (n : Int)) + 1).toNat = 3 * n + 1 := by omega
  rw [loopIdxs, ht, foldl_bayPush, List.nil_append, List.filterMap_map]
  have hWcast : ((3 * (n : Int) : Int) : ℚ) = ((3 * n : Nat) : ℚ) := by push_cast; ring
  rw [hWcast]
  exact filterMap_range_three _ n (2 * n) (3 * n) _ _ _ (by omega) (by omega)
    (fun k _ => by simpa [Function.comp] using bayPushOf_char xs xe n k hn)

/-- C1 (amended): for every createAisle call where width = xEndVal - xStartVal + 1
exceeds length = yEndVal - yStartVal + 1 and width is a positive multiple of 3
(width = 3 * b with 0 < b — positivity is the amendment), the computed bay ranges
are exactly [xStartVal, xStartVal + b - 1], [xStartVal + b, xStartVal + 2b - 1],
[xStartVal + 2b, xEndVal], and these partition the integer interval
[xStartVal, xEndVal] into three contiguous, pairwise disjoint ranges of
b = width/3 elements each. -/
theorem createAisle_horizontal_bays_partition
    (xStartVal xEndVal yStartVal yEndVal b : Int) (hb : 0 < b)
    (hw : xEndVal - xStartVal + 1 = 3 * b)
    (hlt : yEndVal - yStartVal + 1 < xEndVal - xStartVal + 1) :
    bayCoordinates xStartVal xEndVal yStartVal yEndVal =
      [((xStartVal : ℚ), (xStartVal : ℚ) + ((b : ℚ) - 1)),
       ((xStartVal : ℚ) + (b : ℚ), (xStartVal : ℚ) + (2 * (b : ℚ) - 1)),
       ((xStartVal : ℚ) + 2 * (b : ℚ), (xEndVal : ℚ))]
    ∧ Finset.Icc xStartVal (xStartVal + b - 1) ∪
        Finset.Icc (xStartVal + b) (xStartVal + 2 * b - 1) ∪
        Finset.Icc (xStartVal + 2 * b) xEndVal = Finset.Icc xStartVal xEndVal
    ∧ Disjoint (Finset.Icc xStartVal (xStartVal + b - 1))
        (Finset.Icc (xStartVal + b) (xStartVal + 2 * b - 1))
    ∧ Disjoint (Finset.Icc (xStartVal + b) (xStartVal + 2 * b - 1))
        (Finset.Icc (xStartVal + 2 * b) xEndVal)
    ∧ Disjoint (Finset.Icc xStartVal (xStartVal + b - 1))
        (Finset.Icc (xStartVal + 2 * b) xEndVal)
    ∧ (Finset.Icc xStartVal (xStartVal + b - 1)).card = b.toNat
    ∧ (Finset.Icc (xStartVal + b) (xStartVal + 2 * b - 1)).card = b.toNat
    ∧ (Finset.Icc (xStartVal + 2 * b) xEndVal).card = b.toNat := by
  have hn : 1 ≤ b.toNat := by omega
  have hbq : (b : ℚ) = ((b.toNat : Nat) : ℚ) := by
    exact_mod_cast (Int.toNat_of_nonneg (by omega : (0 : Int) ≤ b)).symm
  refine ⟨?_, ?_, ?_, ?_, ?_, ?_, ?_, ?_⟩
  · rw [bayCoordinates_horizontal xStartVal xEndVal yStartVal yEndVal b.toNat hn
      (by omega) hlt, hbq]
  · ext x
    simp only [Finset.mem_union, Finset.mem_Icc]
    omega
  · rw [Finset.disjoint_left]
    intro x hx hx'
    simp only [Finset.mem_Icc] at hx hx'
    omega
  · rw [Finset.disjoint_left]
    intro x hx hx'
    simp only [Finset.mem_Icc] at hx hx'
    omega
  · rw [Finset.disjoint_left]
    intro x hx hx'
    simp only [Finset.mem_Icc] at hx hx'
    omega
  · rw [Int.card_Icc]
    omega
  · rw [Int.card_Icc]
    omega
  · rw [Int.card_Icc]
    omega

/-- Witness for C1's theorem: xStartVal 0, xEndVal 5, yStartVal 0, yEndVal 0,
b = 2 (width 6 > length 1), with bays [0,1], [2,3], [4,5]. -/
theorem createAisle_horizontal_bays_partition_witness :
    (0 : Int) < 2 ∧ (5 : Int) - 0 + 1 = 3 * 2 ∧ (0 : Int) - 0 + 1 < (5 : Int) - 0 + 1 ∧
    bayCoordinates 0 5 0 0 =
      [(((0 : Int) : ℚ), ((0 : Int) : ℚ) + (((2 : Int) : ℚ) - 1)),
       (((0 : Int) : ℚ) + ((2 : Int) : ℚ), ((0 : Int) : ℚ) + (2 * ((2 : Int) : ℚ) - 1)),
       (((0 : Int) : ℚ) + 2 * ((2 : Int) : ℚ), ((5 : Int) : ℚ))] :=
  ⟨by norm_num, by norm_num, by norm_num,
   (createAisle_horizontal_bays_partition 0 5 0 0 2 (by norm_num) (by norm_num)
     (by norm_num)).1⟩

/-- Counterexample to C1 as frozen: at xStartVal 0, xEndVal -1, yStartVal 0,
yEndVal -2 the hypotheses hold (width 0 exceeds length -1 and is divisible by 3,
with bayLen = width/3 = 0), yet the loop pushes exactly one bay range, not the
three claimed ones. -/
theorem createAisle_bays_width_zero_counterexample :
    ((-2 : Int) - 0 + 1 < (-1 : Int) - 0 + 1) ∧ ((3 : Int) ∣ ((-1 : Int) - 0 + 1)) ∧
    bayCoordinates 0 (-1) 0 (-2) = [((0 : ℚ), (-1 : ℚ))] ∧
    bayCoordinates 0 (-1) 0 (-2) ≠
      [(((0 : Int) : ℚ), ((0 : Int) : ℚ) + (((0 : Int) : ℚ) - 1)),
       (((0 : Int) : ℚ) + ((0 : Int) : ℚ), ((0 : Int) : ℚ) + (2 * ((0 : Int) : ℚ) - 1)),
       (((0 : Int) : ℚ) + 2 * ((0 : Int) : ℚ), ((-1 : Int) : ℚ))] := by
  have heval : bayCoordinates 0 (-1) 0 (-2) = [((0 : ℚ), (-1 : ℚ))] := by
    rw [show bayCoordinates 0 (-1) 0 (-2) =
        (loopIdxs ((-1) - 0 + 1)).foldl (bayPush 0 (-1) (((-1) - 0 + 1 : Int) : ℚ)) []
        from rfl,
      show loopIdxs ((-1) - 0 + 1) = [0] from by decide]
    norm_num [bayPush]
  refine ⟨by norm_num, by norm_num, heval, ?_⟩
  rw [heval]
  intro hcontra
  simpa using congrArg List.length hcontra

/-- C2 failing case: createAisle with width > length (bounds 0..5 × 0..0, width 6,
length 1) persists nothing and returns undefined: in the source the construction
of newAisle, the insert and the return all sit inside the width ≤ length branch. -/
theorem createAisle_wide_not_persisted :
    createAisle emptyDB 1 "A" 0 5 0 0 = (emptyDB, none) := rfl

/-- C3 failing case: createAisle with width ≤ length (bounds 0..0 × 0..2, length 3
divisible by 3) persists an aisle whose bays list is empty — no vertical bay
computation exists in the source — instead of the claimed vertical zones
[0,0], [1,1], [2,2]. -/
theorem createAisle_vertical_bays_empty :
    ((createAisle emptyDB 1 "A" 0 0 0 2).2.map AisleDoc.bays) = some [] ∧
    ((createAisle emptyDB 1 "A" 0 0 0 2).2.map AisleDoc.bays) ≠
      some [((0 : ℚ), (0 : ℚ)), ((1 : ℚ), (1 : ℚ)), ((2 : ℚ), (2 : ℚ))] := by
  refine ⟨rfl, ?_⟩
  intro h
  rw [show ((createAisle emptyDB 1 "A" 0 0 0 2).2.map AisleDoc.bays) = some [] from rfl] at h
  simp at h

/-- C4 failing case: with the 2 × 2 map `c4Map` stored under id 0,
getAllMapCoords raises a ReferenceError — `width` and `length` are unbound
identifiers in the source loop — instead of returning the four row-major grid
pairs [0,0], [0,1], [1,0], [1,1] the claim requires. -/
theorem getAllMapCoords_reference_error :
    getAllMapCoords c4State 0 = .error (.referenceError "width") ∧
    getAllMapCoords c4State 0 ≠ .ok (gridCoordsSpec c4Map.width c4Map.length) ∧
    gridCoordsSpec c4Map.width c4Map.length = [(0, 0), (0, 1), (1, 0), (1, 1)] := by
  refine ⟨rfl, ?_, by decide⟩
  intro h
  rw [show getAllMapCoords c4State 0 = .error (.referenceError "width") from rfl] at h
  exact Except.noConfusion h

/-- C5: for every createMap call that passes the title-uniqueness and dimension
checks, an aisle violating the bounds check makes the operation fail with
"Aisle dimensions exceed map dimensions"; when no aisle violates (the aisle
check runs first in the source), a violating checkout lane makes it fail with
"Checkout lane dimensions exceed map dimensions"; in either case the Map
collection is left unchanged — nothing is persisted. -/
theorem createMap_validation_failure_no_persist (st : DB) (title description : String)
    (width length : Int)
    (htitle : ∀ m ∈ st.maps, m.title ≠ title)
    (hwidth : 0 < width) (hlength : 0 < length) :
    (st.aisles.any (aisleViolation width length) = true →
      createMap st title description width length =
        (st, .error (.thrown "Aisle dimensions exceed map dimensions")))
    ∧ (st.aisles.any (aisleViolation width length) = false →
      st.checkouts.any (checkoutViolation width length) = true →
      createMap st title description width length =
        (st, .error (.thrown "Checkout lane dimensions exceed map dimensions")))
    ∧ ((st.aisles.any (aisleViolation width length) = true ∨
        st.checkouts.any (checkoutViolation width length) = true) →
      (createMap st title description width length).1.maps = st.maps) := by
  have hfind : st.maps.find? (fun m => m.title == title) = none := by
    rw [List.find?_eq_none]
    intro m hm
    simpa using htitle m hm
  refine ⟨fun hA => ?_, fun hA hC => ?_, fun h => ?_⟩
  · simp [createMap, hfind, hA, hwidth, hlength]
  · simp [createMap, hfind, hA, hC, hwidth, hlength]
  · rcases h with hA | hC
    · simp [createMap, hfind, hA, hwidth, hlength]
    · by_cases hA' : st.aisles.any (aisleViolation width length) = true
      · simp [createMap, hfind, hA', hwidth, hlength]
      · simp only [Bool.not_eq_true] at hA'
        simp [createMap, hfind, hA', hC, hwidth, hlength]

/-- Witness for C5's theorem: the store `c5State` holds one aisle sticking out of
a 5 × 5 map, so createMap fails with the aisle message and persists nothing. -/
theorem createMap_validation_failure_no_persist_witness :
    (∀ m ∈ c5State.maps, m.title ≠ "Main Store") ∧ ((0 : Int) < 5) ∧
    c5State.aisles.any (aisleViolation 5 5) = true ∧
    createMap c5State "Main Store" "d" 5 5 =
      (c5State, .error (.thrown "Aisle dimensions exceed map dimensions")) :=
  ⟨fun m hm => absurd hm (List.not_mem_nil m), by norm_num, by decide,
   (createMap_validation_failure_no_persist c5State "Main Store" "d" 5 5
     (fun m hm => absurd hm (List.not_mem_nil m)) (by norm_num) (by norm_num)).1
     (by decide)⟩

/-- C6: the bounds check does not require start ≤ end nor start ≤ dimension —
`c6Aisle` has xStartVal = 10 beyond the map width 5 (with xStartVal ≥ 0,
xEndVal = 3 ≤ 5 and valid y-bounds), yet createMap raises no bounds error and
happily persists the map embedding that aisle. -/
theorem createMap_accepts_start_beyond_width :
    c6Aisle.xStartVal > 5 ∧ c6Aisle.xStartVal ≥ 0 ∧ c6Aisle.xEndVal ≤ 5 ∧
    c6Aisle.yStartVal ≥ 0 ∧ c6Aisle.yEndVal ≤ 5 ∧
    createMap c6State "Main" "d" 5 5 =
      ({ c6State with
          maps := [{ _id := some 1, title := "Main", description := "d", width := 5,
                     length := 5, aisle := [c6Aisle], checkout := [] }],
          nextId := 2 },
       .ok { _id := some 1, title := "Main", description := "d", width := 5,
             length := 5, aisle := [c6Aisle], checkout := [] }) := by
  refine ⟨by decide, by decide, by decide, by decide, by decide, rfl⟩

/-- C7: createInventory embeds a point-in-time snapshot: the returned document's
items are exactly the store's items at creation time, the persisted Inventory is
that same document, a later item insert leaves the Inventory collection
untouched, and an item absent at creation time never appears in the snapshot. -/
theorem createInventory_snapshot (st : DB) (id : Int) (title : String) (c : ItemDoc) :
    (createInventory st id title).2.items = st.items
    ∧ (createInventory st id title).1.inventories =
        st.inventories ++ [(createInventory st id title).2]
    ∧ (insertItemDoc (createInventory st id title).1 c).1.inventories =
        (createInventory st id title).1.inventories
    ∧ (c ∉ st.items → c ∉ (createInventory st id title).2.items) :=
  ⟨rfl, rfl, rfl, fun h => h⟩

/-- Witness for C7's theorem: with items A and B in the store, item C — inserted
only later — is not in the created inventory's snapshot. -/
theorem createInventory_snapshot_witness :
    itemC ∉ c7State.items ∧ itemC ∉ (createInventory c7State 1 "inv").2.items :=
  ⟨by decide, (createInventory_snapshot c7State 1 "inv" itemC).2.2.2 (by decide)⟩

/-- C8: getInventory fails with the defined TypeError-shaped error (null
property access on the missing record) when no Inventory has the requested id,
and returns the found Inventory's embedded items when one exists. -/
theorem getInventory_missing_or_found (st : DB) (id : Int) :
    ((∀ inv ∈ st.inventories, inv.id ≠ id) →
      getInventory st id =
        .error (.typeError "Cannot read properties of null (reading items)"))
    ∧ (∀ inv, st.inventories.find? (fun i => i.id == id) = some inv →
      getInventory st id = .ok inv.items) := by
  constructor
  · intro h
    have hfind : st.inventories.find? (fun i => i.id == id) = none := by
      rw [List.find?_eq_none]
      intro inv hm
      simpa using h inv hm
    simp [getInventory, hfind]
  · intro inv hfind
    simp [getInventory, hfind]

/-- Witness for C8's theorem: the store `c8State` holds an Inventory with id 1
(items [itemA]) and none with id 2. -/
theorem getInventory_missing_or_found_witness :
    getInventory c8State 1 = .ok [itemA] ∧
    getInventory c8State 2 =
      .error (.typeError "Cannot read properties of null (reading items)") :=
  ⟨(getInventory_missing_or_found c8State 1).2 c8Inventory rfl,
   (getInventory_missing_or_found c8State 2).1 (by decide)⟩

/-- C9 failing case: createItem constructs and persists nothing — the source
body evaluates the unbound identifier `newAisle` (and would target the Aisles
collection, not Item, even if it were bound), so the call raises a
ReferenceError and the Item collection is unchanged. -/
theorem createItem_reference_error :
    createItem emptyDB "milk" "A1" "B2" (7 / 2) 1 2 =
      (emptyDB, .error (.referenceError "newAisle")) ∧
    (createItem emptyDB "milk" "A1" "B2" (7 / 2) 1 2).1.items = emptyDB.items :=
  ⟨rfl, rfl⟩

/-- Counterexample to C10 as frozen: the created Inventory `c10Inv` carries the
store identifier _id = some 7 and the explicit id = 3; its public id — resolved
by the framework's default resolver, as the source defines no Inventory id
resolver — is 3, while the claimed shaping (prefer the store identifier) would
give 7. -/
theorem inventory_id_not_shaped_counterexample :
    c10Inv._id = some 7 ∧ c10Inv.id = 3 ∧
    some (inventoryPublicId c10Inv) ≠ jsOrId (c10Inv._id.map Int.ofNat) (some c10Inv.id) := by
  decide

/-- C10 (amended): the shaping rule — prefer the store-assigned _id, fall back
to an explicit id attribute — is applied by the Aisle, Item and StoreMap id
resolvers only; Inventory has no id resolver, so its public id is always the
document's explicit caller-supplied id, even though the created document also
carries a store identifier. -/
theorem id_shaping_per_entity (v : Nat) (fallback : Option Nat)
    (st : DB) (id : Int) (title : String) :
    resolveAisleId (some v) fallback = some v
    ∧ resolveItemId (some v) fallback = some v
    ∧ resolveStoreMapId (some v) fallback = some v
    ∧ resolveAisleId none fallback = fallback
    ∧ resolveItemId none fallback = fallback
    ∧ resolveStoreMapId none fallback = fallback
    ∧ (createInventory st id title).2._id = some st.nextId
    ∧ inventoryPublicId (createInventory st id title).2 = id :=
  ⟨rfl, rfl, rfl, rfl, rfl, rfl, rfl, rfl⟩
